import Mathlib

/-!
Verification of the spreadsheet-analytics and ingestion core of the
rag-document-intelligence backend.

The definitions below are a shallow embedding of the Python source:

* `advanced_excel_processor.py` — anomaly detection (`_detect_anomalies`),
  trend analysis (`_analyze_trends`), metadata construction
  (`analyze_excel_advanced`);
* `main.py` — text chunking (`chunk_text`) and the post-retrieval part of
  `query_documents` (similarity conversion, confidence aggregation, the
  empty-result early return);
* `document_processors.py` — dispatch (`process_file_by_type`) and the
  basic Excel fallback metadata (`process_excel_file`).

Machine reals are embedded as exact rationals `ℚ`; comparisons of the form
`|z| > 2` (where `z = (x - mean)/std` and `std` is a square root) are
embedded in the equivalent squared form over `ℚ`, with bridging theorems to
the real-number formulation where a claim needs it.  Python strings are
embedded as `List Char`, with Python's negative-index and clamping slice
semantics made explicit.
-/

namespace RagDoc

/-! ## Rational statistics (advanced_excel_processor.py)

`series.mean()` over the non-missing values of a column: the column is
embedded as the list `xs : List ℚ` of its non-missing values in order. -/

/-- Arithmetic mean of a column's non-missing values (`series.mean()`). -/
def colMean (xs : List ℚ) : ℚ := xs.sum / xs.length

/-- Sum of squared deviations from the mean; `series.std(ddof) ^ 2 * (len - ddof)`
for either ddof.  This is the common core of both standard deviations. -/
def colSsq (xs : List ℚ) : ℚ := (xs.map (fun x => (x - colMean xs) ^ 2)).sum

/-- `_detect_anomalies`, one column (`advanced_excel_processor.py` lines
289-307): columns with fewer than 5 non-missing values are skipped
(`continue`); otherwise `z_scores = np.abs((series - series.mean()) / series.std())`
with the pandas default `ddof = 1` (sample standard deviation), and
`outliers = series[z_scores > 2]`.  The test `|x - mean| / sqrt(ssq/(n-1)) > 2`
is embedded in the equivalent squared form `(n-1) * (x-mean)^2 > 4 * ssq`
(for `ssq = 0` every deviation is `0`, and both the NaN comparison in the
source and the squared form yield no outliers). -/
def detectOutliers (xs : List ℚ) : List ℚ :=
  if xs.length < 5 then []
  else xs.filter (fun x =>
    decide (((xs.length : ℚ) - 1) * (x - colMean xs) ^ 2 > 4 * colSsq xs))

/-- Modelled from the spec's words (claim C1): the outliers of a column
under a *population*-standard-deviation z-score, `|x - mean| / sqrt(ssq/n) > 2`,
in squared form `n * (x-mean)^2 > 4 * ssq`. -/
def specPopOutliers (xs : List ℚ) : List ℚ :=
  if xs.length < 5 then []
  else xs.filter (fun x =>
    decide ((xs.length : ℚ) * (x - colMean xs) ^ 2 > 4 * colSsq xs))

/-! ## Trend analysis (`_analyze_trends`, lines 228-265) -/

/-- `sum_{i<n} i * y_i` for `y = xs`, the cross moment used by the exact
least-squares slope. -/
def idxDot (xs : List ℚ) : ℚ :=
  ((List.range xs.length).zip xs).foldl (fun acc p => acc + (p.1 : ℚ) * p.2) 0

/-- Exact least-squares slope of `np.polyfit(x, y, 1)[0]` with
`x = 0, 1, ..., n-1`: `(n * Σ i*y_i - (Σ i)(Σ y)) / (n * Σ i² - (Σ i)²)`. -/
def lsSlope (xs : List ℚ) : ℚ :=
  let n : ℚ := xs.length
  let si : ℚ := ((List.range xs.length).map (fun i => (i : ℚ))).sum
  let sii : ℚ := ((List.range xs.length).map (fun i => ((i : ℚ)) ^ 2)).sum
  (n * idxDot xs - si * xs.sum) / (n * sii - si ^ 2)

/-- `_analyze_trends`, direction of one column (lines 229-247): a column
with fewer than 3 non-missing values is skipped (`none`); otherwise
`slope = np.polyfit(x, y, 1)[0]` and the direction is `"Vakaa"` (stable)
when `abs(slope) < y.std() * 0.1` (numpy `y.std()` is the *population*
standard deviation, `ddof = 0`), else `"Kasvava"` (increasing) when
`slope > 0`, else `"Laskeva"` (decreasing).  The stability test
`|slope| < 0.1 * sqrt(ssq/n)` is embedded in the equivalent squared form
`100 * n * slope^2 < ssq` (see `trendDirection_stable_iff` inside the C2
theorem for the real-number equivalence). -/
def trendDirection (xs : List ℚ) : Option String :=
  if xs.length < 3 then none
  else
    let m := lsSlope xs
    if 100 * (xs.length : ℚ) * m ^ 2 < colSsq xs then some ("Vakaa")
    else if m > 0 then some ("Kasvava")
    else some ("Laskeva")

/-! ## Shared lemmas for the statistics theorems -/

lemma colSsq_nonneg (xs : List ℚ) : 0 ≤ colSsq xs := by
  refine List.sum_nonneg ?_
  intro y hy
  obtain ⟨x, -, rfl⟩ := List.mem_map.1 hy
  positivity

lemma mem_detectOutliers_iff (xs : List ℚ) (x : ℚ) (h5 : 5 ≤ xs.length) :
    x ∈ detectOutliers xs ↔
      x ∈ xs ∧ 4 * colSsq xs < ((xs.length : ℚ) - 1) * (x - colMean xs) ^ 2 := by
  unfold detectOutliers
  rw [if_neg (by omega)]
  simp [List.mem_filter]

lemma lt_abs_iff_sq_lt (c a : ℝ) (hc : 0 ≤ c) : c < |a| ↔ c ^ 2 < a ^ 2 := by
  rw [← sq_abs a]
  exact (pow_lt_pow_iff_left₀ hc (abs_nonneg a) two_ne_zero).symm

lemma abs_lt_iff_sq_lt (a c : ℝ) (hc : 0 ≤ c) : |a| < c ↔ a ^ 2 < c ^ 2 := by
  rw [← sq_abs a]
  exact (pow_lt_pow_iff_left₀ (abs_nonneg a) hc two_ne_zero).symm

/-- The rational squared comparison used by `detectOutliers` is exactly the
source's test `|x - mean| / std > 2` with the sample (`ddof = 1`) standard
deviation, stated over the reals. -/
lemma sample_z_bridge (xs : List ℚ) (x : ℚ) (h5 : 5 ≤ xs.length) :
    (4 * colSsq xs < ((xs.length : ℚ) - 1) * (x - colMean xs) ^ 2) ↔
      2 * Real.sqrt ((colSsq xs : ℝ) / ((xs.length : ℝ) - 1)) <
        |(x : ℝ) - (colMean xs : ℝ)| := by
  have hn1 : (0:ℝ) < (xs.length : ℝ) - 1 := by
    have : (5:ℝ) ≤ (xs.length : ℝ) := by exact_mod_cast h5
    linarith
  have hssq : (0:ℝ) ≤ (colSsq xs : ℝ) := by exact_mod_cast colSsq_nonneg xs
  have hv : (0:ℝ) ≤ (colSsq xs : ℝ) / ((xs.length : ℝ) - 1) := by positivity
  rw [lt_abs_iff_sq_lt _ _ (by positivity)]
  rw [mul_pow, Real.sq_sqrt hv]
  rw [show ((2:ℝ))^2 = 4 by norm_num]
  rw [mul_div_assoc', div_lt_iff₀ hn1]
  constructor
  · intro h
    have h' : (4:ℝ) * (colSsq xs : ℝ) <
        ((xs.length : ℝ) - 1) * ((x:ℝ) - (colMean xs : ℝ)) ^ 2 := by
      exact_mod_cast h
    linarith [h']
  · intro h
    have h' : (4:ℝ) * (colSsq xs : ℝ) <
        ((xs.length : ℝ) - 1) * ((x:ℝ) - (colMean xs : ℝ)) ^ 2 := by
      linarith [h]
    exact_mod_cast h'

/-- The rational squared comparison used by `trendDirection` is exactly the
source's stability test `abs(slope) < y.std() * 0.1` with the numpy
population (`ddof = 0`) standard deviation, stated over the reals. -/
lemma stable_bridge (xs : List ℚ) (h3 : 3 ≤ xs.length) :
    (100 * (xs.length : ℚ) * lsSlope xs ^ 2 < colSsq xs) ↔
      |(lsSlope xs : ℝ)| <
        (1/10) * Real.sqrt ((colSsq xs : ℝ) / (xs.length : ℝ)) := by
  have hn : (0:ℝ) < (xs.length : ℝ) := by
    have : (3:ℝ) ≤ (xs.length : ℝ) := by exact_mod_cast h3
    linarith
  have hssq : (0:ℝ) ≤ (colSsq xs : ℝ) := by exact_mod_cast colSsq_nonneg xs
  have hv : (0:ℝ) ≤ (colSsq xs : ℝ) / (xs.length : ℝ) := by positivity
  rw [abs_lt_iff_sq_lt _ _ (by positivity)]
  rw [mul_pow, Real.sq_sqrt hv]
  rw [show ((1:ℝ)/10)^2 = 1/100 by norm_num]
  rw [div_mul_div_comm, one_mul]
  rw [lt_div_iff₀ (by positivity)]
  constructor
  · intro h
    have h' : (100:ℝ) * (xs.length : ℝ) * (lsSlope xs : ℝ) ^ 2 <
        (colSsq xs : ℝ) := by exact_mod_cast h
    linarith [h']
  · intro h
    have h' : (100:ℝ) * (xs.length : ℝ) * (lsSlope xs : ℝ) ^ 2 <
        (colSsq xs : ℝ) := by linarith [h]
    exact_mod_cast h'

/-! ## Claim C1 (anomaly detection) -/

/-- C1, counterexample.  The claim is false on the code in two ways.
First, on the spec's own example column `[10, 11, 9, 10, 1000]` the code
flags nothing at all: the code's z-score uses the pandas sample standard
deviation (`ddof = 1`), under which the largest attainable `|z|` in a
5-value column is `4/√5 ≈ 1.789 < 2`, so `1000` is *not* flagged (the
claim says it is).  Second, the code's flagged set is not *exactly* the
population-z set: for the 6-value column `[0, 0, 0, 0, 3, 10]` the
population z-score of `10` exceeds 2 (so the claim flags it) while the
sample z-score does not (so the code flags nothing). -/
theorem c1_counterexample :
    (1000:ℚ) ∉ detectOutliers [10, 11, 9, 10, 1000]
    ∧ detectOutliers [0, 0, 0, 0, 3, 10] = []
    ∧ specPopOutliers [0, 0, 0, 0, 3, 10] = [10] := by
  refine ⟨?_, ?_, ?_⟩ <;>
  · simp only [detectOutliers, specPopOutliers, colMean, colSsq, List.length_cons,
      List.length_nil, List.sum_cons, List.sum_nil, List.map_cons, List.map_nil,
      List.filter]
    norm_num

/-- C1, amended.  For every numeric column with at least 5 non-missing
values the anomaly pass flags as outliers exactly the values whose z-score
computed with the *sample* (`ddof = 1`) standard deviation exceeds 2 in
absolute value; every flagged value also has population z-score above 2
(the code's threshold is strictly stronger), and on both of the spec's
example columns (`[10, 11, 9, 10, 1000]` and `[10, 11, 9, 10, 12]`)
nothing at all is flagged. -/
theorem c1_amended :
    (∀ (xs : List ℚ) (x : ℚ), 5 ≤ xs.length →
      (x ∈ detectOutliers xs ↔ x ∈ xs ∧
        2 * Real.sqrt ((colSsq xs : ℝ) / ((xs.length : ℝ) - 1)) <
          |(x : ℝ) - (colMean xs : ℝ)|))
    ∧ (∀ (xs : List ℚ) (x : ℚ), x ∈ detectOutliers xs → x ∈ specPopOutliers xs)
    ∧ detectOutliers [10, 11, 9, 10, 1000] = []
    ∧ detectOutliers [10, 11, 9, 10, 12] = [] := by
  refine ⟨?_, ?_, ?_, ?_⟩
  · intro xs x h5
    rw [mem_detectOutliers_iff xs x h5, sample_z_bridge xs x h5]
  · intro xs x hx
    unfold detectOutliers at hx
    unfold specPopOutliers
    by_cases h5 : xs.length < 5
    · rw [if_pos h5] at hx; simp at hx
    · rw [if_neg h5] at hx
      rw [if_neg h5]
      rw [List.mem_filter] at hx ⊢
      refine ⟨hx.1, ?_⟩
      have h := of_decide_eq_true hx.2
      rw [decide_eq_true_eq]
      nlinarith [sq_nonneg (x - colMean xs)]
  · simp only [detectOutliers, colMean, colSsq, List.length_cons, List.length_nil,
      List.sum_cons, List.sum_nil, List.map_cons, List.map_nil, List.filter]
    norm_num
  · simp only [detectOutliers, colMean, colSsq, List.length_cons, List.length_nil,
      List.sum_cons, List.sum_nil, List.map_cons, List.map_nil, List.filter]
    norm_num

/-- C1, witness: `c1_amended` applied at the concrete 6-value column
`[0, 0, 0, 0, 0, 100]`, whose value `100` is flagged by the code
(sample z ≈ 2.04 > 2) and hence also population-flagged. -/
theorem c1_amended_witness :
    (100:ℚ) ∈ specPopOutliers [0, 0, 0, 0, 0, 100] := by
  refine c1_amended.2.1 [0, 0, 0, 0, 0, 100] 100 ?_
  simp only [detectOutliers, colMean, colSsq, List.length_cons, List.length_nil,
    List.sum_cons, List.sum_nil, List.map_cons, List.map_nil, List.filter]
  norm_num

/-! ## Claim C2 (trend direction) -/

/-- C2, counterexample.  The constant column `[100, 100, 100]` has exact
least-squares slope 0 and standard deviation 0, so the source's stability
test `abs(slope) < y.std() * 0.1` reads `0 < 0` and fails; `slope > 0`
also fails, and the column is classified `"Laskeva"` (decreasing) — not
`"Vakaa"` (stable) as the claim asserts. -/
theorem c2_counterexample :
    trendDirection [100, 100, 100] = some ("Laskeva")
    ∧ some ("Laskeva") ≠ some ("Vakaa") := by
  refine ⟨?_, by decide⟩
  simp only [trendDirection, lsSlope, idxDot, colMean, colSsq, List.length_cons,
    List.length_nil, List.range_succ, List.range_zero, List.sum_cons, List.sum_nil,
    List.map_cons, List.map_nil, List.zip_cons_cons, List.zip_nil_right,
    List.zip_nil_left, List.foldl_cons, List.foldl_nil, List.append_nil,
    List.nil_append, List.cons_append, List.map_append, List.sum_append,
    List.foldl_append]
  norm_num

/-- C2, amended.  For every numeric column with at least 3 non-missing
values the direction is `"Vakaa"` (stable) exactly when the least-squares
slope `m` satisfies `|m| < 0.1 * stddev(values)` *strictly* (population
standard deviation, as computed by numpy's `y.std()`); when that strict
inequality fails the direction is `"Kasvava"` (increasing) if `m > 0` and
otherwise `"Laskeva"` (decreasing).  In particular `[100, 100, 100]`
(zero slope, zero stddev) is classified `"Laskeva"`, not stable, and
`[10, 20, 30, 40]` is classified `"Kasvava"`. -/
theorem c2_amended :
    (∀ xs : List ℚ, 3 ≤ xs.length →
      (trendDirection xs = some ("Vakaa") ↔
        |(lsSlope xs : ℝ)| <
          (1/10) * Real.sqrt ((colSsq xs : ℝ) / (xs.length : ℝ)))
      ∧ ((1/10) * Real.sqrt ((colSsq xs : ℝ) / (xs.length : ℝ)) ≤
            |(lsSlope xs : ℝ)| →
          trendDirection xs =
            if 0 < lsSlope xs then some ("Kasvava") else some ("Laskeva")))
    ∧ trendDirection [100, 100, 100] = some ("Laskeva")
    ∧ trendDirection [10, 20, 30, 40] = some ("Kasvava") := by
  refine ⟨?_, ?_, ?_⟩
  · intro xs h3
    have hbr := stable_bridge xs h3
    constructor
    · rw [← hbr]
      unfold trendDirection
      rw [if_neg (by omega)]
      constructor
      · intro h
        by_contra hcon
        rw [if_neg hcon] at h
        by_cases hm : lsSlope xs > 0
        · rw [if_pos hm] at h; exact Option.some.inj h |> fun he => by simp at he
        · rw [if_neg hm] at h; exact Option.some.inj h |> fun he => by simp at he
      · intro h
        rw [if_pos h]
    · intro hge
      have hnot : ¬ (100 * (xs.length : ℚ) * lsSlope xs ^ 2 < colSsq xs) := by
        rw [hbr]; exact not_lt.mpr hge
      unfold trendDirection
      rw [if_neg (by omega), if_neg hnot]
  · simp only [trendDirection, lsSlope, idxDot, colMean, colSsq, List.length_cons,
      List.length_nil, List.range_succ, List.range_zero, List.sum_cons, List.sum_nil,
      List.map_cons, List.map_nil, List.zip_cons_cons, List.zip_nil_right,
      List.zip_nil_left, List.foldl_cons, List.foldl_nil, List.append_nil,
      List.nil_append, List.cons_append, List.map_append, List.sum_append,
      List.foldl_append]
    norm_num
  · simp only [trendDirection, lsSlope, idxDot, colMean, colSsq, List.length_cons,
      List.length_nil, List.range_succ, List.range_zero, List.sum_cons, List.sum_nil,
      List.map_cons, List.map_nil, List.zip_cons_cons, List.zip_nil_right,
      List.zip_nil_left, List.foldl_cons, List.foldl_nil, List.append_nil,
      List.nil_append, List.cons_append, List.map_append, List.sum_append,
      List.foldl_append]
    norm_num

/-- C2, witness: `c2_amended` applied at the concrete column
`[10, 20, 30, 40]` (slope 10, population stddev `√125`), discharging the
length hypothesis and the failed-stability hypothesis there. -/
theorem c2_amended_witness :
    trendDirection [10, 20, 30, 40] =
      if 0 < lsSlope [10, 20, 30, 40] then some ("Kasvava") else some ("Laskeva") := by
  refine ((c2_amended.1 [10, 20, 30, 40] (by norm_num)).2 ?_)
  have h1 : (lsSlope [10, 20, 30, 40] : ℝ) = 10 := by
    simp only [lsSlope, idxDot, List.length_cons, List.length_nil, List.range_succ,
      List.range_zero, List.sum_cons, List.sum_nil, List.map_cons, List.map_nil,
      List.zip_cons_cons, List.zip_nil_right, List.zip_nil_left, List.foldl_cons,
      List.foldl_nil, List.append_nil, List.nil_append, List.cons_append,
      List.map_append, List.sum_append, List.foldl_append]
    norm_num
  have h2 : (colSsq [10, 20, 30, 40] : ℝ) = 500 := by
    simp only [colSsq, colMean, List.length_cons, List.length_nil, List.sum_cons,
      List.sum_nil, List.map_cons, List.map_nil]
    norm_num
  rw [h1, h2]
  have hle : Real.sqrt (500 / (4:ℕ)) ≤ Real.sqrt 169 := by
    apply Real.sqrt_le_sqrt
    norm_num
  have h13 : Real.sqrt 169 = 13 := by
    rw [show (169:ℝ) = 13 ^ 2 by norm_num]
    exact Real.sqrt_sq (by norm_num)
  rw [abs_of_pos (by norm_num)]
  calc (1/10) * Real.sqrt (500 / ((4:ℕ):ℝ)) ≤ (1/10) * 13 := by
        push_cast
        nlinarith [hle, h13]
    _ ≤ 10 := by norm_num

/-! ## Text chunking (`chunk_text`, `main.py` lines 95-122)

The text is a `List Char`; positions are integers, because the loop
variable `start = end - overlap` can go negative (Python slice and index
semantics for negative positions are embedded explicitly). -/

/-- Python slice-endpoint normalization: a negative index counts from the
end of the string and both endpoints are clamped into `[0, len]`. -/
def clampIdx (n i : ℤ) : ℤ := if i < 0 then max (n + i) 0 else min i n

/-- Python slice `s[a:b]`. -/
def pySlice (s : List Char) (a b : ℤ) : List Char :=
  (s.drop (clampIdx s.length a).toNat).take
    ((clampIdx s.length b) - (clampIdx s.length a)).toNat

/-- Python subscript `s[i]` with negative-index wrapping; models the source
for `-len ≤ i < len` (every execution analyzed below stays in that range;
Python raises `IndexError` outside it). -/
def pyGet (s : List Char) (i : ℤ) : Char :=
  if 0 ≤ i then s.getD i.toNat (Char.ofNat 0)
  else s.getD (((s.length : ℤ) + i)).toNat (Char.ofNat 0)

/-- `sub` is a prefix of `rest` (the matching core of `str.find` / `in`). -/
def prefixMatch : List Char → List Char → Bool
  | [], _ => true
  | _ :: _, [] => false
  | c :: cs, d :: ds => c == d && prefixMatch cs ds

/-- Scan forward from `idx`, at most `k` candidate positions, for the first
occurrence of `sub`. -/
def findSubAux (s sub : List Char) : ℕ → ℕ → Option ℕ
  | 0, _ => none
  | k + 1, idx =>
    if prefixMatch sub (s.drop idx) then some idx else findSubAux s sub k (idx + 1)

/-- Python `s.find(sub, f)` (returning `none` for `-1`): first occurrence of
`sub` at a position `≥ f` after Python's normalization of a negative `f`. -/
def pyFind (s sub : List Char) (f : ℤ) : Option ℕ :=
  findSubAux s sub (s.length + 1 - (if f < 0 then (s.length : ℤ) + f else f).toNat)
    (if f < 0 then (s.length : ℤ) + f else f).toNat

/-- Python `sub in s`. -/
def containsSub (s sub : List Char) : Bool := (pyFind s sub 0).isSome

/-- The structural section marker `"==="` of `chunk_text`. -/
def marker : List Char := ['=', '=', '=']

/-- Sentence-terminating characters: the source's `'.!?\n'`. -/
def isTerm (c : Char) : Bool := c == '.' || c == '!' || c == '?' || c == '\n'

/-- The backward scan `for i in range(end, M, -1)`: starting at position
`i` and taking at most `k` steps downward, the first position whose
character is sentence-terminating. -/
def scanBackAux (s : List Char) : ℕ → ℤ → Option ℤ
  | 0, _ => none
  | k + 1, i => if isTerm (pyGet s i) then some i else scanBackAux s k (i - 1)

/-- Python `str.strip()` whitespace set. -/
def isSpaceChar (c : Char) : Bool :=
  c == ' ' || c == '\t' || c == '\n' || c == '\r' || c == Char.ofNat 11 ||
    c == Char.ofNat 12

/-- Python `str.strip()`. -/
def pyStrip (s : List Char) : List Char :=
  ((s.dropWhile isSpaceChar).reverse.dropWhile isSpaceChar).reverse

/-- One iteration of `chunk_text`'s window-end computation (`main.py` lines
101-114): default end `start + chunk_size`; if `"==="` occurs in the window
`text[start:end]`, look for the *next* `"==="` from the default end onward
(`text.find("===", end)`) and move the end there when `table_end - start <
chunk_size * 1.5` (embedded exactly as `2*(p - start) < 3*size`); otherwise,
if `end < len(text)`, scan backward from the default end (but not past
`max(start + chunk_size - 200, start)`) for a sentence terminator and set
the end just after it. -/
def windowEnd (text : List Char) (size start : ℤ) : ℤ :=
  if containsSub (pySlice text start (start + size)) marker then
    match pyFind text marker (start + size) with
    | some p => if 2 * ((p : ℤ) - start) < 3 * size then (p : ℤ) else start + size
    | none => start + size
  else if start + size < (text.length : ℤ) then
    match scanBackAux text ((start + size) - max (start + size - 200) start).toNat
        (start + size) with
    | some i => i + 1
    | none => start + size
  else start + size

/-- One full iteration of the `while` loop body (`main.py` lines 100-120):
the (possibly empty, then discarded) stripped chunk produced from the
current window, and the next value of `start = end - overlap`. -/
def stepChunk (text : List Char) (size overlap start : ℤ) :
    List (List Char) × ℤ :=
  ((if (pyStrip (pySlice text start (windowEnd text size start))).isEmpty then []
    else [pyStrip (pySlice text start (windowEnd text size start))]),
   windowEnd text size start - overlap)

/-- The `while start < len(text)` loop, with explicit fuel: `none` means the
fuel was exhausted with the loop guard still true. -/
def chunkLoop (text : List Char) (size overlap : ℤ) :
    ℕ → ℤ → List (List Char) → Option (List (List Char))
  | 0, start, acc => if start < (text.length : ℤ) then none else some acc
  | fuel + 1, start, acc =>
    if start < (text.length : ℤ) then
      chunkLoop text size overlap fuel (stepChunk text size overlap start).2
        (acc ++ (stepChunk text size overlap start).1)
    else some acc

/-- `chunk_text(text, chunk_size, overlap)` run with fuel `len(text) + 1`,
which suffices whenever the loop makes progress of at least one position
per iteration (see the C3 theorem). -/
def chunk_text (text : List Char) (size overlap : ℤ) : Option (List (List Char)) :=
  chunkLoop text size overlap (text.length + 1) 0 []

/-- The non-terminating input for claim C3: `"a." + "a" * 200`. -/
def badText : List Char := 'a' :: '.' :: List.replicate 200 'a'

/-! ## Shared lemmas for the chunker theorems -/

lemma findSubAux_ge (s sub : List Char) :
    ∀ (k idx p : ℕ), findSubAux s sub k idx = some p → idx ≤ p := by
  intro k
  induction k with
  | zero => intro idx p h; simp [findSubAux] at h
  | succ k ih =>
    intro idx p h
    rw [findSubAux] at h
    by_cases hm : prefixMatch sub (s.drop idx) = true
    · rw [if_pos hm] at h
      exact le_of_eq (Option.some.inj h)
    · rw [if_neg hm] at h
      have := ih (idx + 1) p h
      omega

lemma pyFind_ge (s sub : List Char) (f : ℤ) (p : ℕ) (hf : 0 ≤ f)
    (h : pyFind s sub f = some p) : f ≤ (p : ℤ) := by
  unfold pyFind at h
  rw [if_neg (by omega)] at h
  have h1 := findSubAux_ge s sub _ _ _ h
  have h2 : (f.toNat : ℤ) = f := Int.toNat_of_nonneg hf
  omega

lemma pyFind_none_of_gt (s sub : List Char) (f : ℤ)
    (hf : (s.length : ℤ) < f) : pyFind s sub f = none := by
  unfold pyFind
  rw [if_neg (by omega)]
  have : s.length + 1 - f.toNat = 0 := by omega
  rw [this]
  rfl

lemma scanBackAux_bounds (s : List Char) :
    ∀ (k : ℕ) (i j : ℤ), scanBackAux s k i = some j → i - k < j ∧ j ≤ i := by
  intro k
  induction k with
  | zero => intro i j h; simp [scanBackAux] at h
  | succ k ih =>
    intro i j h
    rw [scanBackAux] at h
    by_cases hm : isTerm (pyGet s i) = true
    · rw [if_pos hm] at h
      have := Option.some.inj h
      omega
    · rw [if_neg hm] at h
      have := ih (i - 1) j h
      omega

/-- Per-window progress bound: from a nonnegative `start` the window end is
at least `start + min size (max (size - 200) 0 + 2)` — the table branch and
the no-boundary cases keep the default end `start + size`, a found marker
only moves the end forward, and the backward sentence scan stops strictly
above `max(start + size - 200, start)`. -/
lemma windowEnd_lb (text : List Char) (size start : ℤ) (hs : 0 ≤ start)
    (hsz : 0 < size) :
    start + min size (max (size - 200) 0 + 2) ≤ windowEnd text size start := by
  unfold windowEnd
  by_cases hc : containsSub (pySlice text start (start + size)) marker = true
  · rw [if_pos hc]
    rcases hfind : pyFind text marker (start + size) with _ | p
    · show start + min size (max (size - 200) 0 + 2) ≤ start + size
      omega
    · have hp := pyFind_ge text marker (start + size) p (by omega) hfind
      show start + min size (max (size - 200) 0 + 2) ≤
        if 2 * ((p : ℤ) - start) < 3 * size then (p : ℤ) else start + size
      by_cases hcond : 2 * ((p : ℤ) - start) < 3 * size
      · rw [if_pos hcond]; omega
      · rw [if_neg hcond]; omega
  · rw [if_neg hc]
    by_cases hlt : start + size < (text.length : ℤ)
    · rw [if_pos hlt]
      rcases hscan : scanBackAux text
          ((start + size) - max (start + size - 200) start).toNat (start + size)
        with _ | i
      · show start + min size (max (size - 200) 0 + 2) ≤ start + size
        omega
      · have hb := scanBackAux_bounds text _ _ _ hscan
        have hM : ((((start + size) - max (start + size - 200) start).toNat : ℤ)) =
            (start + size) - max (start + size - 200) start := by
          apply Int.toNat_of_nonneg; omega
        show start + min size (max (size - 200) 0 + 2) ≤ i + 1
        omega
    · rw [if_neg hlt]; omega

lemma chunkLoop_exit (text : List Char) (size overlap : ℤ) (fuel : ℕ)
    (start : ℤ) (acc : List (List Char)) (h : ¬ start < (text.length : ℤ)) :
    chunkLoop text size overlap fuel start acc = some acc := by
  cases fuel <;> simp [chunkLoop, h]

lemma chunkLoop_term (text : List Char) (size overlap : ℤ)
    (h1 : 0 < overlap) (h2 : overlap < size)
    (h3 : overlap ≤ max (size - 200) 0 + 1) :
    ∀ (fuel : ℕ) (start : ℤ) (acc : List (List Char)),
      0 ≤ start → (text.length : ℤ) ≤ start + fuel →
      ∃ cs, chunkLoop text size overlap fuel start acc = some cs := by
  intro fuel
  induction fuel with
  | zero =>
    intro start acc hs hlen
    refine ⟨acc, chunkLoop_exit _ _ _ _ _ _ ?_⟩
    omega
  | succ k ih =>
    intro start acc hs hlen
    by_cases hguard : start < (text.length : ℤ)
    · rw [chunkLoop, if_pos hguard]
      have hwe := windowEnd_lb text size start hs (by omega)
      have hnext : start + 1 ≤ (stepChunk text size overlap start).2 := by
        unfold stepChunk
        simp only
        omega
      exact ih (stepChunk text size overlap start).2 _ (by omega)
        (by push_cast at hlen ⊢; omega)
    · exact ⟨acc, chunkLoop_exit _ _ _ _ _ _ hguard⟩

set_option maxRecDepth 4000

lemma badText_step0 : stepChunk badText 100 50 0 = ([['a', '.']], -48) := by decide

lemma badText_stepFix : stepChunk badText 100 50 (-48) = ([], -48) := by decide

lemma badText_len : (badText.length : ℤ) = 202 := by decide

lemma badText_loop_none :
    ∀ (fuel : ℕ) (acc : List (List Char)),
      chunkLoop badText 100 50 fuel (-48) acc = none := by
  intro fuel
  induction fuel with
  | zero =>
    intro acc
    rw [chunkLoop, if_pos (by rw [badText_len]; omega)]
  | succ k ih =>
    intro acc
    rw [chunkLoop, if_pos (by rw [badText_len]; omega), badText_stepFix]
    simpa using ih acc

/-! ## Claim C3 (segmentation termination) -/

/-- C3, counterexample.  With `chunk_size = 100` and `overlap = 50`
(satisfying the claim's constraint `0 < overlap < target_size`) on the text
`"a." ++ "a" * 200`, the first iteration snaps the window end back to
position 2 (the period), so `start` becomes `2 - 50 = -48`; from `start =
-48` the iteration reproduces `start = -48` exactly (the Python slice
`text[-48:2]` is empty, the backward scan again finds the period at index
1), so the loop guard `start < len(text)` never becomes false and the
`while` loop never terminates.  Accordingly the fueled embedding exhausts
`len(text) + 1` iterations without finishing. -/
theorem c3_counterexample :
    ((0:ℤ) < 50 ∧ (50:ℤ) < 100)
    ∧ (stepChunk badText 100 50 0).2 = -48
    ∧ (stepChunk badText 100 50 (-48)).2 = -48
    ∧ (-48:ℤ) < (badText.length : ℤ)
    ∧ chunk_text badText 100 50 = none := by
  refine ⟨⟨by norm_num, by norm_num⟩, by rw [badText_step0], by rw [badText_stepFix],
    by rw [badText_len]; norm_num, ?_⟩
  unfold chunk_text
  rw [show badText.length + 1 = 202 + 1 from by decide]
  rw [chunkLoop, if_pos (by rw [badText_len]; omega), badText_step0]
  exact badText_loop_none 202 _

/-- C3, amended.  The segmentation scan terminates for every input text
whenever `0 < overlap < target_size` *and* `overlap ≤ max(target_size -
200, 0) + 1`: every iteration then advances `start` by at least one
position, so fuel `len(text) + 1` suffices and the result is a finite
sequence of chunks.  (The deployed call sites use `target_size ∈ {1000,
1500}` with `overlap = 300`, which satisfy the strengthened bound; without
it the sentence-boundary snap-back of up to `200` characters can push
`start` backwards forever, as the counterexample shows.) -/
theorem c3_amended (text : List Char) (size overlap : ℤ)
    (h1 : 0 < overlap) (h2 : overlap < size)
    (h3 : overlap ≤ max (size - 200) 0 + 1) :
    ∃ cs, chunk_text text size overlap = some cs := by
  unfold chunk_text
  exact chunkLoop_term text size overlap h1 h2 h3 (text.length + 1) 0 []
    le_rfl (by push_cast; omega)

/-- C3, witness: `c3_amended` at the deployed parameters `chunk_size =
1000`, `overlap = 300` on a concrete text. -/
theorem c3_amended_witness :
    ∃ cs, chunk_text ("abc".toList) 1000 300 = some cs :=
  c3_amended ("abc".toList) 1000 300 (by norm_num) (by norm_num) (by decide)

/-! ## Claim C4 (segmenter totality) -/

lemma pySlice_full (s : List Char) (b : ℤ) (hb : (s.length : ℤ) ≤ b) :
    pySlice s 0 b = s := by
  unfold pySlice clampIdx
  rw [if_neg (by omega), if_neg (by omega)]
  have h0 : min (0:ℤ) (s.length : ℤ) = 0 := by omega
  have hb' : min b (s.length : ℤ) = (s.length : ℤ) := by omega
  rw [h0, hb']
  simp

/-- C4, counterexample.  For `s = "abcdefghij"` (length 10 ≤ target_size
10) with `overlap = 5`, segmentation yields *two* chunks, not one: the
first window emits all of `s`, but `start` then advances only to `10 - 5 =
5 < len(s)`, so a second iteration emits the trailing `"fghij"`. -/
theorem c4_counterexample :
    ("abcdefghij".toList.length : ℤ) ≤ 10
    ∧ chunk_text ("abcdefghij".toList) 10 5 =
        some ["abcdefghij".toList, "fghij".toList] := by
  exact ⟨by decide, by decide⟩

/-- C4, amended.  Segmenting the empty string yields the empty sequence
(not a sequence containing one empty chunk) for all parameters; and any
text `s` with `len(s) ≤ target_size - overlap` whose whitespace-trimmed
form is nonempty yields exactly one chunk equal to `s` trimmed.  (For
`target_size - overlap < len(s) ≤ target_size` the first chunk is still
all of `s` trimmed, but the overlap re-scan can emit further trailing
chunks, as the counterexample shows; a whitespace-only `s` yields no chunk
at all because empty trimmed chunks are discarded.) -/
theorem c4_amended :
    (∀ size overlap : ℤ, chunk_text [] size overlap = some [])
    ∧ (∀ (text : List Char) (size overlap : ℤ), 0 < overlap → overlap < size →
        (text.length : ℤ) ≤ size - overlap → pyStrip text ≠ [] →
        chunk_text text size overlap = some [pyStrip text]) := by
  constructor
  · intro size overlap
    simp [chunk_text, chunkLoop]
  · intro text size overlap h1 h2 hlen hstrip
    have hne : text ≠ [] := by
      intro h
      apply hstrip
      rw [h]
      rfl
    have hpos : 0 < (text.length : ℤ) := by
      have := List.length_pos.mpr hne
      omega
    unfold chunk_text
    rw [chunkLoop, if_pos hpos]
    have hwe : windowEnd text size 0 = size := by
      unfold windowEnd
      by_cases hc : containsSub (pySlice text 0 (0 + size)) marker = true
      · rw [if_pos hc, pyFind_none_of_gt text marker (0 + size) (by omega)]
        show (0:ℤ) + size = size
        omega
      · rw [if_neg hc, if_neg (by omega : ¬ ((0:ℤ) + size < (text.length : ℤ)))]
        omega
    have hstep : stepChunk text size overlap 0 = ([pyStrip text], size - overlap) := by
      unfold stepChunk
      rw [hwe, pySlice_full text size (by omega)]
      rw [if_neg (by simp [List.isEmpty_iff, hstrip])]
    rw [hstep, List.nil_append]
    exact chunkLoop_exit text size overlap text.length (size - overlap)
      [pyStrip text] (by omega)

/-- C4, witness: `c4_amended` at the empty text with parameters `(10, 3)`,
and at `s = "hello"` with `target_size = 20`, `overlap = 5`
(`len(s) = 5 ≤ 20 - 5`). -/
theorem c4_amended_witness :
    chunk_text [] 10 3 = some []
    ∧ chunk_text ("hello".toList) 20 5 = some [pyStrip ("hello".toList)] :=
  ⟨c4_amended.1 10 3,
   c4_amended.2 ("hello".toList) 20 5 (by norm_num) (by norm_num) (by decide)
     (by decide)⟩

/-! ## Claim C5 (section-marker boundary snapping) -/

/-- C5, counterexample.  In `"ab===cdefghijklmnop"` with `target_size = 10`
the marker `"==="` occurs *inside* the first window at index 2, and
snapping there would give a sub-window of length 2 ≤ 1.5 × 10 — yet the
code leaves the window end at the default 10: `text.find("===", end)`
searches only from the default end onward, finds no later marker, and the
in-window occurrence is never used as a cut point (the claim says the end
is snapped to just before it). -/
theorem c5_counterexample :
    containsSub (pySlice ("ab===cdefghijklmnop".toList) 0 (0 + 10)) marker = true
    ∧ pyFind ("ab===cdefghijklmnop".toList) marker 0 = some 2
    ∧ (2:ℤ) * (2 - 0) < 3 * 10
    ∧ windowEnd ("ab===cdefghijklmnop".toList) 10 0 = 10 :=
  ⟨by decide, by decide, by decide, by decide⟩

/-- C5, amended.  When the marker occurs within the window, the code never
shortens the window to the in-window occurrence: it looks for the *next*
marker occurrence at or after the default end `start + target_size`, and
either no usable occurrence exists (the end stays at the default) or the
end is *extended* to just before that later occurrence `p`, accepted only
when `p - start < 1.5 × target_size`; in every case the window end is at
least `start + target_size`.  Concretely, in `"aa===bbbccc===ddddd"` with
`target_size = 10` the first window contains a marker at index 2, the next
marker from the default end 10 is at index 11, and the window end becomes
11 (just before that later marker), not 2. -/
theorem c5_amended :
    (∀ (text : List Char) (size start : ℤ), 0 ≤ start → 0 < size →
      containsSub (pySlice text start (start + size)) marker = true →
      start + size ≤ windowEnd text size start
      ∧ (windowEnd text size start = start + size
         ∨ ∃ p : ℕ, pyFind text marker (start + size) = some p
             ∧ 2 * ((p : ℤ) - start) < 3 * size
             ∧ windowEnd text size start = p))
    ∧ containsSub (pySlice ("aa===bbbccc===ddddd".toList) 0 (0 + 10)) marker = true
    ∧ pyFind ("aa===bbbccc===ddddd".toList) marker 10 = some 11
    ∧ windowEnd ("aa===bbbccc===ddddd".toList) 10 0 = 11 := by
  refine ⟨?_, by decide, by decide, by decide⟩
  intro text size start hs hsz hc
  unfold windowEnd
  rw [if_pos hc]
  rcases hfind : pyFind text marker (start + size) with _ | p
  · constructor
    · show start + size ≤ start + size
      omega
    · left
      show start + size = start + size
      rfl
  · have hp := pyFind_ge text marker (start + size) p (by omega) hfind
    by_cases hcond : 2 * ((p : ℤ) - start) < 3 * size
    · constructor
      · show start + size ≤
          if 2 * ((p:ℤ) - start) < 3 * size then (p:ℤ) else start + size
        rw [if_pos hcond]; omega
      · right
        refine ⟨p, rfl, hcond, ?_⟩
        show (if 2 * ((p:ℤ) - start) < 3 * size then (p:ℤ) else start + size) = p
        rw [if_pos hcond]
    · constructor
      · show start + size ≤
          if 2 * ((p:ℤ) - start) < 3 * size then (p:ℤ) else start + size
        rw [if_neg hcond]
      · left
        show (if 2 * ((p:ℤ) - start) < 3 * size then (p:ℤ) else start + size) =
          start + size
        rw [if_neg hcond]

/-- C5, witness: `c5_amended`'s universal part applied at the concrete
marker-bearing text with `target_size = 10`, `start = 0`. -/
theorem c5_amended_witness :
    (0:ℤ) + 10 ≤ windowEnd ("aa===bbbccc===ddddd".toList) 10 0 :=
  (c5_amended.1 ("aa===bbbccc===ddddd".toList) 10 0 (by norm_num) (by norm_num)
    (by decide)).1

/-! ## File-type dispatch (`process_file_by_type`, `document_processors.py`
lines 130-161) -/

/-- Python `str.lower()`. -/
def pyLower (s : List Char) : List Char := s.map Char.toLower

/-- `filename.lower().split(chr(46))[-1] if chr(46) in filename else str()`:
the lowercased extension after the last dot, or empty when the filename has
no dot. -/
def fileExt (filename : List Char) : List Char :=
  if filename.contains '.' then
    ((pyLower filename).reverse.takeWhile (fun c => !(c == '.'))).reverse
  else []

/-- The four format families produced by dispatch. -/
inductive FileFamily where
  | excel
  | pdf
  | text
  | unsupported
deriving DecidableEq

/-- Dispatch skeleton of `process_file_by_type`: which extractor handles
the input.  Each branch tests the extension *or* a substring of the
lowercased declared content type, in order excel → pdf → text. -/
def dispatchFileType (filename content_type : List Char) : FileFamily :=
  if fileExt filename = "xlsx".toList ∨ fileExt filename = "xls".toList
      ∨ containsSub (pyLower content_type) "excel".toList = true then .excel
  else if fileExt filename = "pdf".toList
      ∨ containsSub (pyLower content_type) "pdf".toList = true then .pdf
  else if fileExt filename = "txt".toList ∨ fileExt filename = "md".toList
      ∨ containsSub (pyLower content_type) "text".toList = true then .text
  else .unsupported

/-- Modelled from the spec's words (claim C6): dispatch purely by file
extension, the behavior the claim asserts takes precedence. -/
def specExtDispatch (ext : List Char) : FileFamily :=
  if ext = "xlsx".toList ∨ ext = "xls".toList then .excel
  else if ext = "pdf".toList then .pdf
  else if ext = "txt".toList ∨ ext = "md".toList then .text
  else .unsupported

/-! ## Claim C6 (extension-first dispatch) -/

/-- C6, counterexample.  A file named `report.txt` uploaded with declared
content type `application/vnd.ms-excel` is routed to the *Excel* extractor,
not the text extractor: the Excel branch is tested first and fires on the
content-type substring even though the `.txt` extension selects the text
family.  The extension does not take precedence over the declared content
type, contrary to the claim. -/
theorem c6_counterexample :
    fileExt ("report.txt".toList) = "txt".toList
    ∧ dispatchFileType ("report.txt".toList)
        ("application/vnd.ms-excel".toList) = FileFamily.excel
    ∧ FileFamily.excel ≠ FileFamily.text :=
  ⟨by decide, by decide, by decide⟩

/-- C6, amended.  Dispatch tests, in the fixed order excel → pdf → text,
whether *either* the extension matches the family *or* the lowercased
declared content type contains the family's token; the extension is
therefore decisive only when the content type mentions none of the tokens
`excel`, `pdf`, `text` — in that case dispatch agrees with the pure
extension-based dispatch — while a content type naming an earlier family
overrides a later family's extension (e.g. a `.txt` file with an Excel
content type is processed by the Excel extractor). -/
theorem c6_amended :
    (∀ filename content_type : List Char,
      containsSub (pyLower content_type) ("excel".toList) = false →
      containsSub (pyLower content_type) ("pdf".toList) = false →
      containsSub (pyLower content_type) ("text".toList) = false →
      dispatchFileType filename content_type = specExtDispatch (fileExt filename))
    ∧ dispatchFileType ("report.txt".toList) ("application/vnd.ms-excel".toList) =
        FileFamily.excel := by
  refine ⟨?_, by decide⟩
  intro filename content_type h1 h2 h3
  simp only [dispatchFileType, specExtDispatch, h1, h2, h3, Bool.false_eq_true,
    or_false]

/-- C6, witness: `c6_amended` applied at filename `data.xlsx` with content
type `application/octet-stream`, which contains none of the three family
tokens. -/
theorem c6_amended_witness :
    dispatchFileType ("data.xlsx".toList) ("application/octet-stream".toList) =
      specExtDispatch (fileExt ("data.xlsx".toList)) :=
  c6_amended.1 ("data.xlsx".toList) ("application/octet-stream".toList)
    (by decide) (by decide) (by decide)

/-! ## Retrieval, confidence and the empty-result path (`query_documents`,
`main.py` lines 279-451)

The vector-index reply is embedded as the list of hits (document text,
metadata fields, distance) that `collection.query` returns for the issuing
user; the generation service is an opaque function argument. -/

/-- Distance-to-similarity conversion `max(0, 1 - distance)` (line 303). -/
def similarity (d : ℚ) : ℚ := max 0 (1 - d)

/-- Python 3 `round(x, 3)` core: round to the nearest integer, ties to the
even integer (banker's rounding), here applied to `1000 * x`. -/
def roundHalfEven (x : ℚ) : ℤ :=
  if x - ⌊x⌋ < 1/2 then ⌊x⌋
  else if x - ⌊x⌋ > 1/2 then ⌊x⌋ + 1
  else if ⌊x⌋ % 2 = 0 then ⌊x⌋ else ⌊x⌋ + 1

/-- Python `round(x, 3)` over exact rationals. -/
def round3 (x : ℚ) : ℚ := (roundHalfEven (1000 * x) : ℚ) / 1000

/-- One hit returned by the vector index for the issuing user. -/
structure RetrievalHit where
  text : String
  source : String
  chunk_id : ℕ
  file_type : String
  has_numerical_data : Bool
  distance : ℚ

/-- One entry of the response's `sources` list (lines 315-321); its
`confidence` is the similarity rounded to 3 decimals. -/
structure SourceEntry where
  source : String
  chunk_id : ℕ
  confidence : ℚ
  file_type : String
  has_numerical_data : Bool

/-- Source-list entry built from a hit (lines 303, 315-321). -/
def mkSource (h : RetrievalHit) : SourceEntry :=
  ⟨h.source, h.chunk_id, round3 (similarity h.distance), h.file_type,
   h.has_numerical_data⟩

/-- Source-type label by stored file-type tag (lines 307-311, emojis
omitted). -/
def sourceTag (file_type : String) : String :=
  if file_type = "excel" then ("Excel-taulukko")
  else if file_type = "pdf" then ("PDF-dokumentti")
  else if file_type = "text" then ("Tekstitiedosto")
  else ("Dokumentti")

/-- Context text fed into the prompt: each chunk prefixed with its source
label and filename, joined by a blank line (lines 313, 323). -/
def contextText (hits : List RetrievalHit) : String :=
  String.intercalate ("\n\n")
    (hits.map (fun h => sourceTag h.file_type ++ " (" ++ h.source ++ "): " ++ h.text))

/-- The fixed no-relevant-documents answer (line 287). -/
def noDocsAnswer : String :=
  "En löydä relevanttia tietoa ladatuista dokumenteista. Lataa ensin dokumentteja (Excel, PDF tai tekstitiedostoja) ja yritä uudelleen."

/-- Observable outcome of the post-retrieval part of `query_documents`:
the answer, the sources list, the aggregated confidence, and whether the
generation collaborator was invoked at all. -/
structure QueryOutcome where
  answer : String
  sources : List SourceEntry
  confidence : ℚ
  generationCalled : Bool

/-- `query_documents` after the vector-index search (lines 285-292 and
294-451): an empty hit list short-circuits to the fixed answer with
confidence `0.0` and no sources, *before* the generation call; otherwise
the sources are assembled, the answer is generated from the composed
context, and the returned confidence is the mean of the per-source
(3-decimal-rounded) confidences, itself rounded to 3 decimals (lines 437,
448). -/
def query_documents (hits : List RetrievalHit) (generate : String → String) :
    QueryOutcome :=
  if hits.isEmpty then ⟨noDocsAnswer, [], 0, false⟩
  else
    ⟨generate (contextText hits), hits.map mkSource,
     round3 ((((hits.map mkSource).map SourceEntry.confidence).sum) /
       ((hits.map mkSource).length)),
     true⟩

/-- Modelled from the spec's words (claim C8): the exact arithmetic mean of
the similarity scores of all sources. -/
def specMeanSimilarity (hits : List RetrievalHit) : ℚ :=
  (hits.map (fun h => similarity h.distance)).sum / hits.length

/-! ## Shared lemmas for the confidence theorems -/

lemma roundHalfEven_close (x : ℚ) : |((roundHalfEven x : ℤ) : ℚ) - x| ≤ 1/2 := by
  have hfl : ((⌊x⌋ : ℤ) : ℚ) ≤ x := Int.floor_le x
  have hfu : x < (⌊x⌋ : ℚ) + 1 := Int.lt_floor_add_one x
  unfold roundHalfEven
  split_ifs with h1 h2 h3 <;>
  · push_cast
    rw [abs_le]
    constructor <;> linarith

lemma round3_close (x : ℚ) : |round3 x - x| ≤ 1/2000 := by
  have h := roundHalfEven_close (1000 * x)
  unfold round3
  have heq : (roundHalfEven (1000 * x) : ℚ) / 1000 - x =
      ((roundHalfEven (1000 * x) : ℚ) - 1000 * x) / 1000 := by ring
  rw [heq, abs_div]
  rw [show |(1000:ℚ)| = 1000 from by norm_num]
  linarith [h]

lemma map_round3_sum_close (l : List ℚ) :
    |(l.map round3).sum - l.sum| ≤ l.length / 2000 := by
  induction l with
  | nil => simp
  | cons x t ih =>
    simp only [List.map_cons, List.sum_cons, List.length_cons]
    have hx := round3_close x
    calc |round3 x + (t.map round3).sum - (x + t.sum)|
        = |(round3 x - x) + ((t.map round3).sum - t.sum)| := by ring_nf
      _ ≤ |round3 x - x| + |(t.map round3).sum - t.sum| := abs_add _ _
      _ ≤ 1/2000 + t.length / 2000 := by linarith [ih]
      _ ≤ ((t.length + 1 : ℕ) : ℚ) / 2000 := by
          push_cast
          linarith

lemma round3_eval_9_10 : round3 (9/10 : ℚ) = 9/10 := by
  unfold round3 roundHalfEven
  norm_num

lemma round3_eval_11_15 : round3 (11/15 : ℚ) = 733/1000 := by
  unfold round3 roundHalfEven
  have hfl : ⌊(1000 * (11/15) : ℚ)⌋ = 733 := by norm_num [Int.floor_eq_iff]
  rw [hfl]
  norm_num

/-- A hit with the given distance and fixed metadata, for the concrete
confidence computations. -/
def mkHit (d : ℚ) : RetrievalHit := ⟨"", "doc.txt", 0, "text", false, d⟩

/-! ## Claim C7 (empty-result query) -/

/-- C7, confirmed.  When the vector-index search returns no chunks for the
issuing user, `query_documents` returns the fixed no-relevant-documents
answer with confidence `0.0` and an empty source list; the early return
precedes the generation call, so the generation service is not invoked —
in the embedding, the flag is `false` and the outcome does not depend on
the generation function at all. -/
theorem c7_empty_result :
    (∀ generate : String → String,
      (query_documents [] generate).answer = noDocsAnswer
      ∧ (query_documents [] generate).sources = []
      ∧ (query_documents [] generate).confidence = 0
      ∧ (query_documents [] generate).generationCalled = false)
    ∧ (∀ g g' : String → String, query_documents [] g = query_documents [] g') :=
  ⟨fun _ => ⟨rfl, rfl, rfl, rfl⟩, fun _ _ => rfl⟩

/-! ## Claim C8 (confidence aggregation) -/

/-- C8, counterexample.  For distances `[0.1, 0.3, 0.4]`, whose
similarities are `[0.9, 0.7, 0.6]`, the exact mean is `11/15 = 0.7333…`
but the returned confidence is `round(11/15, 3) = 0.733 ≠ 11/15`: the
code rounds the aggregate (and each per-source similarity) to three
decimals, so the returned confidence does not in general *equal* the
arithmetic mean of the similarity scores. -/
theorem c8_counterexample :
    (query_documents [mkHit (1/10), mkHit (3/10), mkHit (2/5)]
        (fun _ => ([] : List Char).asString)).confidence = 733/1000
    ∧ specMeanSimilarity [mkHit (1/10), mkHit (3/10), mkHit (2/5)] = 11/15
    ∧ (733/1000 : ℚ) ≠ 11/15 := by
  refine ⟨?_, ?_, by norm_num⟩
  · show round3 ((round3 (similarity (1/10)) + (round3 (similarity (3/10)) +
      (round3 (similarity (2/5)) + 0))) / 3) = 733/1000
    have e1 : similarity (1/10) = 9/10 := by unfold similarity; norm_num [max_def]
    have e2 : similarity (3/10) = 7/10 := by unfold similarity; norm_num [max_def]
    have e3 : similarity (2/5) = 3/5 := by unfold similarity; norm_num [max_def]
    rw [e1, e2, e3]
    have r1 : round3 (9/10 : ℚ) = 9/10 := round3_eval_9_10
    have r2 : round3 (7/10 : ℚ) = 7/10 := by unfold round3 roundHalfEven; norm_num
    have r3 : round3 (3/5 : ℚ) = 3/5 := by unfold round3 roundHalfEven; norm_num
    rw [r1, r2, r3]
    rw [show ((9:ℚ)/10 + (7/10 + (3/5 + 0))) / 3 = 11/15 from by norm_num]
    exact round3_eval_11_15
  · show ((similarity (1/10)) + ((similarity (3/10)) + ((similarity (2/5)) + 0))) / 3
      = 11/15
    unfold similarity
    norm_num [max_def]

/-- C8, amended.  For zero sources the confidence is `0.0`; for at least
one source the returned confidence is the three-decimal rounding of the
mean of the three-decimal-rounded per-source similarities, hence within
`0.001` of the exact arithmetic mean of the similarity scores; on the
spec's example similarities `[0.9, 0.7, 0.5]` (distances `[0.1, 0.3,
0.5]`) it equals `0.7` exactly. -/
theorem c8_amended :
    (∀ generate : String → String, (query_documents [] generate).confidence = 0)
    ∧ (∀ (h : RetrievalHit) (t : List RetrievalHit) (generate : String → String),
        |(query_documents (h :: t) generate).confidence -
          specMeanSimilarity (h :: t)| ≤ 1/1000)
    ∧ (query_documents [mkHit (1/10), mkHit (3/10), mkHit (1/2)]
        (fun _ => ([] : List Char).asString)).confidence = 7/10 := by
  refine ⟨fun g => rfl, ?_, ?_⟩
  · intro h t g
    show |round3 ((((h :: t).map mkSource).map SourceEntry.confidence).sum /
        (((h :: t).map mkSource).length)) - specMeanSimilarity (h :: t)| ≤ 1/1000
    have hmap : ((h :: t).map mkSource).map SourceEntry.confidence =
        ((h :: t).map (fun x => similarity x.distance)).map round3 := by
      simp [mkSource, List.map_map, Function.comp]
    have hlen : (((h :: t).map mkSource).length : ℚ) = (((h :: t).length : ℕ) : ℚ) := by
      simp
    rw [hmap, hlen]
    set raw : List ℚ := (h :: t).map (fun x => similarity x.distance) with hraw
    have hrawlen : ((raw.length : ℕ) : ℚ) = (((h :: t).length : ℕ) : ℚ) := by
      rw [hraw]; simp
    have hn : (0:ℚ) < (((h :: t).length : ℕ) : ℚ) := by
      simp only [List.length_cons]
      push_cast
      positivity
    have hsum := map_round3_sum_close raw
    have h1 : |(raw.map round3).sum - raw.sum| ≤ (((h :: t).length : ℕ) : ℚ) / 2000 := by
      rw [← hrawlen]; exact hsum
    have key : |(raw.map round3).sum / (((h :: t).length : ℕ) : ℚ) -
        raw.sum / (((h :: t).length : ℕ) : ℚ)| ≤ 1/2000 := by
      rw [div_sub_div_same, abs_div, abs_of_pos hn]
      have step : |(raw.map round3).sum - raw.sum| / (((h :: t).length : ℕ) : ℚ) ≤
          ((((h :: t).length : ℕ) : ℚ) / 2000) / (((h :: t).length : ℕ) : ℚ) := by
        exact (div_le_div_iff_of_pos_right hn).mpr h1
      have eq1 : ((((h :: t).length : ℕ) : ℚ) / 2000) / (((h :: t).length : ℕ) : ℚ) =
          1 / 2000 := by
        field_simp
        ring
      linarith [step, eq1.le]
    have hspec : specMeanSimilarity (h :: t) = raw.sum / (((h :: t).length : ℕ) : ℚ) := by
      rfl
    rw [hspec]
    set n : ℚ := (((h :: t).length : ℕ) : ℚ)
    set avg : ℚ := (raw.map round3).sum / n
    calc |round3 avg - raw.sum / n|
        = |(round3 avg - avg) + (avg - raw.sum / n)| := by ring_nf
      _ ≤ |round3 avg - avg| + |avg - raw.sum / n| := abs_add _ _
      _ ≤ 1/2000 + 1/2000 := add_le_add (round3_close avg) key
      _ = 1/1000 := by norm_num
  · show round3 ((round3 (similarity (1/10)) + (round3 (similarity (3/10)) +
      (round3 (similarity (1/2)) + 0))) / 3) = 7/10
    have e1 : similarity (1/10) = 9/10 := by unfold similarity; norm_num [max_def]
    have e2 : similarity (3/10) = 7/10 := by unfold similarity; norm_num [max_def]
    have e3 : similarity (1/2) = 1/2 := by unfold similarity; norm_num [max_def]
    rw [e1, e2, e3]
    have r1 : round3 (9/10 : ℚ) = 9/10 := round3_eval_9_10
    have r2 : round3 (7/10 : ℚ) = 7/10 := by unfold round3 roundHalfEven; norm_num
    have r3 : round3 (1/2 : ℚ) = 1/2 := by unfold round3 roundHalfEven; norm_num
    rw [r1, r2, r3]
    rw [show ((9:ℚ)/10 + (7/10 + (1/2 + 0))) / 3 = 7/10 from by norm_num]
    exact r2

/-! ## Excel analysis metadata (`analyze_excel_advanced` lines 49-60,
`process_excel_file` lines 84-91, `upload_document` lines 214-249)

Python dicts are embedded as association lists of string keys. -/

/-- A Python dict/list value, as far as the metadata claims need it. -/
inductive MetaValue where
  | str : String → MetaValue
  | bool : Bool → MetaValue
  | nat : ℕ → MetaValue
  | strList : List String → MetaValue
  | obj : List (String × MetaValue) → MetaValue

/-- A metadata dictionary. -/
def Metadata : Type := List (String × MetaValue)

/-- Key lookup in a metadata dictionary. -/
def metaLookup (m : Metadata) (k : String) : Option MetaValue :=
  (m.find? (fun p => p.1 == k)).map Prod.snd

/-- Python `dict.get(k, default)`. -/
def pyDictGet (m : Metadata) (k : String) (dflt : MetaValue) : MetaValue :=
  (metaLookup m k).getD dflt

/-- The `analysis_results` dict of `analyze_excel_advanced`'s success path
(`advanced_excel_processor.py` lines 50-60): its keys are exactly these
nine, fixed at construction; the per-sheet loop only fills in the values
(sub-dicts and the insights list), never adds a key.  The value parameters
range over everything the loop can produce. -/
def advancedAnalysisResults (sheets : List String)
    (kpi trend comp : List (String × MetaValue)) (insights : List String)
    (numSummary anomaly : List (String × MetaValue)) (hints : List String) :
    Metadata :=
  [("file_type", MetaValue.str ("excel")),
   ("sheets", MetaValue.strList sheets),
   ("kpi_analysis", MetaValue.obj kpi),
   ("trend_analysis", MetaValue.obj trend),
   ("comparative_analysis", MetaValue.obj comp),
   ("business_insights", MetaValue.strList insights),
   ("numerical_summary", MetaValue.obj numSummary),
   ("anomaly_detection", MetaValue.obj anomaly),
   ("forecasting_hints", MetaValue.strList hints)]

/-- The metadata dict of the *basic* fallback summarizer
(`document_processors.py` lines 84-91): it includes `has_analytics`
(whether any numeric column was summarized) and records its tier in
`analysis_type`. -/
def basicExcelMetadata (sheets : List String)
    (numericalSummary : List (String × MetaValue)) : Metadata :=
  [("file_type", MetaValue.str ("excel")),
   ("sheets", MetaValue.strList sheets),
   ("total_sheets", MetaValue.nat sheets.length),
   ("numerical_data", MetaValue.obj numericalSummary),
   ("has_analytics", MetaValue.bool (decide (0 < numericalSummary.length))),
   ("analysis_type", MetaValue.str ("basic"))]

/-- `metadata.get(chr(104)…, False)` as used by `upload_document` both for
the per-chunk vector-index metadata (line 229) and the response fields
(lines 241, 248): the `has_analytics` flag with default `False`. -/
def uploadHasNumericalData (m : Metadata) : MetaValue :=
  pyDictGet m ("has_analytics") (MetaValue.bool false)

/-! ## Claim C9 (metadata records the analysis tier) -/

/-- C9, counterexample.  A concrete workbook ingested through the advanced
analyzer's success path produces metadata with *no* `analysis_type` key
(nor any other tier marker among its nine fixed keys), so the metadata
does not record which analysis tier ran; only the basic fallback writes
`analysis_type = basic`. -/
theorem c9_counterexample :
    metaLookup (advancedAnalysisResults [] [] [] [] [] [] [] [])
      ("analysis_type") = none
    ∧ metaLookup (basicExcelMetadata [] []) ("analysis_type") =
        some (MetaValue.str ("basic")) :=
  ⟨rfl, rfl⟩

/-- C9, amended.  Only the basic fallback summarizer records the analysis
tier: its metadata always carries `analysis_type = basic`, while the
advanced analyzer's success-path metadata contains no `analysis_type` key
for any workbook. -/
theorem c9_amended :
    (∀ (sheets : List String) (kpi trend comp : List (String × MetaValue))
       (insights : List String) (numSummary anomaly : List (String × MetaValue))
       (hints : List String),
      metaLookup (advancedAnalysisResults sheets kpi trend comp insights
        numSummary anomaly hints) ("analysis_type") = none)
    ∧ (∀ (sheets : List String) (ns : List (String × MetaValue)),
        metaLookup (basicExcelMetadata sheets ns) ("analysis_type") =
          some (MetaValue.str ("basic"))) :=
  ⟨fun _ _ _ _ _ _ _ _ => rfl, fun _ _ => rfl⟩

/-! ## Claim C10 (has_numerical_data is False on the advanced path) -/

/-- C10, confirmed.  The advanced analyzer's success-path metadata has no
`has_analytics` key, so `metadata.get` in `upload_document` falls back to
its default and both the stored chunk metadata and the response carry
`has_numerical_data = False`, whatever the workbook contains; the flag can
be `True` only when the basic fallback summarizer produced the metadata
(it is, as soon as the basic numerical summary is nonempty). -/
theorem c10_advanced_flag :
    (∀ (sheets : List String) (kpi trend comp : List (String × MetaValue))
       (insights : List String) (numSummary anomaly : List (String × MetaValue))
       (hints : List String),
      metaLookup (advancedAnalysisResults sheets kpi trend comp insights
        numSummary anomaly hints) ("has_analytics") = none
      ∧ uploadHasNumericalData (advancedAnalysisResults sheets kpi trend comp
          insights numSummary anomaly hints) = MetaValue.bool false)
    ∧ (∀ (sheets : List String) (p : String × MetaValue)
         (rest : List (String × MetaValue)),
        uploadHasNumericalData (basicExcelMetadata sheets (p :: rest)) =
          MetaValue.bool true) := by
  constructor
  · intro sheets kpi trend comp insights numSummary anomaly hints
    exact ⟨rfl, rfl⟩
  · intro sheets p rest
    simp [uploadHasNumericalData, pyDictGet, metaLookup, basicExcelMetadata,
      List.find?]

end RagDoc
